import Mathlib

/-!
Verification development for `scripts/build.py`, a command-line build
orchestrator.  The script is embedded shallowly: option parsing (the
subset of CPython's `getopt` the script exercises), the path-derivation
and existence-check phase of `main`, and the `cmake_configure`
generate/build/test loop.  The filesystem is abstracted as a predicate
`isfile : String → Bool` and the external subprocesses as an oracle
`List String → Int` giving the exit code of each invoked command line.
A run is summarised by the lines it prints, the paths whose existence it
checks, the subprocess command lines it launches, and its final process
exit code.
-/

/-! ## The getopt embedding (the fragment of CPython getopt used by build.py) -/

/-- Split a long-option token at its first `=`, as
`opt, optarg = opt[:i], opt[i+1:]` does: returns the part before the
first `=` and, when a `=` is present, the part after it. -/
def splitFirstEq : List Char → List Char × Option (List Char)
  | [] => ([], none)
  | c :: t =>
    if c = '=' then ([], some t)
    else
      match splitFirstEq t with
      | (a, b) => (c :: a, b)

/-- `long_has_args` of CPython getopt: resolve a long option (possibly a
unique prefix of a declared option) against the declared long options,
returning whether it takes an argument and its full name. -/
def longHasArgs (opt : List Char) (longopts : List (List Char)) :
    Except String (Bool × List Char) :=
  let possibilities := longopts.filter (fun o => opt.isPrefixOf o)
  if possibilities.isEmpty then
    .error ("option --" ++ String.mk opt ++ " not recognized")
  else if opt ∈ possibilities then .ok (false, opt)
  else if (opt ++ ['=']) ∈ possibilities then .ok (true, opt)
  else if 1 < possibilities.length then
    .error ("option --" ++ String.mk opt ++ " not a unique prefix")
  else
    match possibilities with
    | u :: _ =>
      if u.getLast? = some '=' then .ok (true, u.dropLast) else .ok (false, u)
    | [] => .error "unreachable"

/-- `do_longs` of CPython getopt, minus the consumption of a separate
argument word: `.inl (name, value)` is a completed option pair, while
`.inr name` means option `--name` needs its argument taken from the next
word of the argument list (done by the caller). -/
def doLongsPure (longopts : List (List Char)) (s : List Char) :
    Except String ((String × String) ⊕ String) :=
  match splitFirstEq s with
  | (opt, optarg) =>
    match longHasArgs opt longopts with
    | .error e => .error e
    | .ok (true, o) =>
      match optarg with
      | none => .ok (.inr (String.mk o))
      | some v => .ok (.inl ("--" ++ String.mk o, String.mk v))
    | .ok (false, o) =>
      match optarg with
      | some _ =>
        .error ("option --" ++ String.mk o ++ " must not have an argument")
      | none => .ok (.inl ("--" ++ String.mk o, ""))

/-- `short_has_arg` of CPython getopt: whether short option `c` takes an
argument according to the short-option declaration string. -/
def shortHasArg (c : Char) : List Char → Except String Bool
  | [] => .error ("option -" ++ String.mk [c] ++ " not recognized")
  | x :: rest =>
    if c = x ∧ x ≠ ':' then .ok (decide (rest.head? = some ':'))
    else shortHasArg c rest

/-- `do_shorts` of CPython getopt, minus the consumption of a separate
argument word: processes a cluster of short options; `some c` in the
second component means option `-c` needs its argument taken from the
next word of the argument list (done by the caller). -/
def doShortsPure (shortopts : List Char) :
    List Char → Except String (List (String × String) × Option Char)
  | [] => .ok ([], none)
  | c :: rest =>
    match shortHasArg c shortopts with
    | .error e => .error e
    | .ok true =>
      if rest.isEmpty then .ok ([], some c)
      else .ok ([(String.mk ['-', c], String.mk rest)], none)
    | .ok false =>
      match doShortsPure shortopts rest with
      | .error e => .error e
      | .ok (ps, pend) => .ok ((String.mk ['-', c], "") :: ps, pend)

/-- The main loop of CPython `getopt.getopt`: walk the argument words,
stopping at the first non-option word, at a lone `-`, or after `--`,
returning the parsed option pairs and the remaining words. -/
def getoptGo (shortopts : List Char) (longopts : List (List Char)) :
    List String → Except String (List (String × String) × List String)
  | [] => .ok ([], [])
  | a :: rest =>
    match a.data with
    | '-' :: '-' :: [] => .ok ([], rest)
    | '-' :: '-' :: cs =>
      match doLongsPure longopts cs with
      | .error e => .error e
      | .ok (.inl p) =>
        match getoptGo shortopts longopts rest with
        | .error e => .error e
        | .ok (ps, rem) => .ok (p :: ps, rem)
      | .ok (.inr optname) =>
        match rest with
        | [] => .error ("option --" ++ optname ++ " requires argument")
        | b :: rest2 =>
          match getoptGo shortopts longopts rest2 with
          | .error e => .error e
          | .ok (ps, rem) => .ok (("--" ++ optname, b) :: ps, rem)
    | '-' :: c :: cs =>
      match doShortsPure shortopts (c :: cs) with
      | .error e => .error e
      | .ok (ps, none) =>
        match getoptGo shortopts longopts rest with
        | .error e => .error e
        | .ok (ps2, rem) => .ok (ps ++ ps2, rem)
      | .ok (ps, some pc) =>
        match rest with
        | [] => .error ("option -" ++ String.mk [pc] ++ " requires argument")
        | b :: rest2 =>
          match getoptGo shortopts longopts rest2 with
          | .error e => .error e
          | .ok (ps2, rem) => .ok ((ps ++ [(String.mk ['-', pc], b)]) ++ ps2, rem)
    | _ => .ok ([], a :: rest)

/-- The exact `getopt` call made by `build.py`:
`getopt.getopt(argv, "hv:c:", ["vcpkg=", "cl="])`. -/
def pyGetopt (argv : List String) :
    Except String (List (String × String) × List String) :=
  getoptGo "hv:c:".data ["vcpkg=".data, "cl=".data] argv

/-! ## The data of build.py -/

/-- The three module-level path variables of `build.py`
(`vcpkg_toolchain`, `cl_c`, `cl_cpp`). -/
structure ToolchainConfig where
  vcpkg_toolchain : String
  cl_c : String
  cl_cpp : String
deriving DecidableEq

/-- The initial values of the module-level variables: all empty strings. -/
def initialConfig : ToolchainConfig := ⟨"", "", ""⟩

/-- The fixed relative suffix appended to the `-v` base path:
`'/vcpkg/scripts/buildsystems/vcpkg.cmake'`. -/
def vcpkgSuffix : String := "/vcpkg/scripts/buildsystems/vcpkg.cmake"

/-- The option-processing loop of `main`: `-h` prints usage and exits
(modelled as `.error ()`), `-v`/`--vcpkg` sets the toolchain path,
`-c`/`--cl` sets both compiler paths. -/
def applyOpts : List (String × String) → ToolchainConfig → Except Unit ToolchainConfig
  | [], cfg => .ok cfg
  | (opt, arg) :: rest, cfg =>
    if opt = "-h" then .error ()
    else if opt = "-v" ∨ opt = "--vcpkg" then
      applyOpts rest { cfg with vcpkg_toolchain := arg ++ vcpkgSuffix }
    else if opt = "-c" ∨ opt = "--cl" then
      applyOpts rest { cfg with cl_c := arg ++ "/clang", cl_cpp := arg ++ "/clang++" }
    else applyOpts rest cfg

/-- The usage line printed when `getopt` raises `GetoptError`. -/
def usageOnError : String :=
  "build.py -v <vcpkg install path> -c <clang compiler binaries path>"

/-- The usage line printed for `-h`. -/
def usageOnHelp : String :=
  "build.py -v <vcpkg toolchain cmake file> -c <clang compiler binaries path>"

/-- How `main` ends: a process exit (via `sys.exit`/`exit`) with the given
code, or falling through to `cmake_configure` with the populated globals. -/
inductive MainOut where
  | exited (code : Nat)
  | proceed (cfg : ToolchainConfig)
deriving DecidableEq

/-- Observable behaviour of `main`: the lines printed, the paths passed to
`os.path.isfile` in order, and how it ended. -/
structure MainTrace where
  printed : List String
  fsChecks : List String
  result : MainOut
deriving DecidableEq

/-- The existence-check phase of `main`: check the toolchain file, then
compute both compiler checks, then fail on the C compiler, then on the
C++ compiler, each failure printing `<path> could not be found` and
exiting 1. -/
def checksPhase (cfg : ToolchainConfig) (isfile : String → Bool) : MainTrace :=
  if isfile cfg.vcpkg_toolchain = false then
    ⟨[cfg.vcpkg_toolchain ++ " could not be found"], [cfg.vcpkg_toolchain], .exited 1⟩
  else if isfile cfg.cl_c = false then
    ⟨[cfg.cl_c ++ " could not be found"],
     [cfg.vcpkg_toolchain, cfg.cl_c, cfg.cl_cpp], .exited 1⟩
  else if isfile cfg.cl_cpp = false then
    ⟨[cfg.cl_cpp ++ " could not be found"],
     [cfg.vcpkg_toolchain, cfg.cl_c, cfg.cl_cpp], .exited 1⟩
  else ⟨[], [cfg.vcpkg_toolchain, cfg.cl_c, cfg.cl_cpp], .proceed cfg⟩

/-- `main(argv)` of `build.py`: parse options (usage + exit 1 on
`GetoptError`), process them (`-h` prints usage and exits 0), then run
the existence checks. -/
def pymain (argv : List String) (isfile : String → Bool) : MainTrace :=
  match pyGetopt argv with
  | .error _ => ⟨[usageOnError], [], .exited 1⟩
  | .ok (opts, _) =>
    match applyOpts opts initialConfig with
    | .error _ => ⟨[usageOnHelp], [], .exited 0⟩
    | .ok cfg => checksPhase cfg isfile

/-- The configuration `main` resolves from an argument list, when parsing
succeeds and `-h` is not hit. -/
def resolvedConfig (argv : List String) : Option ToolchainConfig :=
  match pyGetopt argv with
  | .error _ => none
  | .ok (opts, _) =>
    match applyOpts opts initialConfig with
    | .error _ => none
    | .ok cfg => some cfg

/-! ## cmake_configure -/

/-- Output directory of the `"Release"` entry of the `targets` dict. -/
def relDir : String := "../build/release"

/-- Output directory of the `"Debug"` entry of the `targets` dict. -/
def dbgDir : String := "../build/debug"

/-- The `targets` dict of `cmake_configure`, in insertion order (Python
dicts iterate in insertion order). -/
def targets : List (String × String) := [("Release", relDir), ("Debug", dbgDir)]

/-- The `params` command line of the generate step for build type `t` and
output directory `d`. -/
def generateParams (cfg : ToolchainConfig) (t d : String) : List String :=
  ["cmake", "-DCMAKE_BUILD_TYPE=" ++ t, "-DCMAKE_MAKE_PROGRAM=ninja",
   "-DCMAKE_C_COMPILER=" ++ cfg.cl_c, "-DCMAKE_CXX_COMPILER=" ++ cfg.cl_cpp,
   "-G", "Ninja", "-DCMAKE_TOOLCHAIN_FILE=" ++ cfg.vcpkg_toolchain,
   "-S", "..", "-B", d]

/-- The `compile_params` command line of the build step for output
directory `d`. -/
def buildParams (d : String) : List String :=
  ["cmake", "--build", d, "--target", "mempool", "memtests", "--", "-j", "8"]

/-- The test-run command line: the test binary at a fixed relative path
under the output directory. -/
def testCommand (d : String) : List String := [d ++ "/test/memtests"]

/-- The diagnostic printed when a generate or build step returns a
non-zero code `rc`. -/
def cmakeFailMsg (rc : Int) : String :=
  "CMake returned " ++ toString rc ++ " and can not proceed"

/-- Observable behaviour of `cmake_configure` (and of the whole process
from that point on): printed lines, launched command lines, and the
process exit code (1 if a generate or build step failed, else 0). -/
structure RunTrace where
  printed : List String
  procs : List (List String)
  exitCode : Nat
deriving DecidableEq

/-- The loop body of `cmake_configure` over the remaining entries of the
`targets` dict: generate (fatal on non-zero), build (fatal on non-zero),
then announce and run the tests (non-fatal on non-zero). -/
def cmake_configure (cfg : ToolchainConfig) (o : List String → Int) :
    List (String × String) → RunTrace
  | [] => ⟨[], [], 0⟩
  | (t, d) :: rest =>
    if o (generateParams cfg t d) ≠ 0 then
      ⟨[cmakeFailMsg (o (generateParams cfg t d))], [generateParams cfg t d], 1⟩
    else if o (buildParams d) ≠ 0 then
      ⟨[cmakeFailMsg (o (buildParams d))],
       [generateParams cfg t d, buildParams d], 1⟩
    else
      ⟨("Running " ++ t ++ " tests...") ::
         ((if o (testCommand d) ≠ 0 then [d ++ " tests failed"] else []) ++
           (cmake_configure cfg o rest).printed),
       generateParams cfg t d :: buildParams d :: testCommand d ::
         (cmake_configure cfg o rest).procs,
       (cmake_configure cfg o rest).exitCode⟩

/-- The full sequence of command lines launched when every step of every
configuration succeeds, in launch order. -/
def fullSequence (cfg : ToolchainConfig) : List (List String) :=
  [generateParams cfg "Release" relDir, buildParams relDir, testCommand relDir,
   generateParams cfg "Debug" dbgDir, buildParams dbgDir, testCommand dbgDir]

/-! ## The whole process -/

/-- Observable behaviour of a whole run of `build.py`:
`main(sys.argv[1:])` followed, if `main` returns, by `cmake_configure()`. -/
structure ProgTrace where
  printed : List String
  fsChecks : List String
  procs : List (List String)
  exitCode : Nat
deriving DecidableEq

/-- A whole run of the script: `main(sys.argv[1:])`, then — only if `main`
falls through — `cmake_configure()` on the populated globals. -/
def runProgram (argv : List String) (isfile : String → Bool)
    (o : List String → Int) : ProgTrace :=
  match pymain argv isfile with
  | ⟨printed, fsChecks, .exited c⟩ => ⟨printed, fsChecks, [], c⟩
  | ⟨printed, fsChecks, .proceed cfg⟩ =>
    ⟨printed ++ (cmake_configure cfg o targets).printed, fsChecks,
     (cmake_configure cfg o targets).procs,
     (cmake_configure cfg o targets).exitCode⟩

/-- The configuration derived from base paths `bv` (via `-v`) and `bc`
(via `-c`). -/
def mkConfig (bv bc : String) : ToolchainConfig :=
  ⟨bv ++ vcpkgSuffix, bc ++ "/clang", bc ++ "/clang++"⟩

/-- Whether the character list `needle` occurs contiguously inside `hay`. -/
def occursIn : List Char → List Char → Bool
  | needle, [] => needle.isEmpty
  | needle, c :: t => needle.isPrefixOf (c :: t) || occursIn needle t

/-! ## Helper lemmas -/

theorem pymain_parse_checks (argv : List String) (opts : List (String × String))
    (rest : List String) (cfg : ToolchainConfig) (isfile : String → Bool)
    (hg : pyGetopt argv = .ok (opts, rest))
    (ha : applyOpts opts initialConfig = .ok cfg) :
    pymain argv isfile = checksPhase cfg isfile := by
  simp [pymain, hg, ha]

theorem string_empty_append (s : String) : "" ++ s = s := by
  cases s; rfl

theorem checksPhase_vcpkg_missing (cfg : ToolchainConfig) (isfile : String → Bool)
    (h : isfile cfg.vcpkg_toolchain = false) :
    checksPhase cfg isfile =
      ⟨[cfg.vcpkg_toolchain ++ " could not be found"], [cfg.vcpkg_toolchain], .exited 1⟩ := by
  simp [checksPhase, h]

theorem checksPhase_clc_missing (cfg : ToolchainConfig) (isfile : String → Bool)
    (h1 : isfile cfg.vcpkg_toolchain = true) (h2 : isfile cfg.cl_c = false) :
    checksPhase cfg isfile =
      ⟨[cfg.cl_c ++ " could not be found"],
       [cfg.vcpkg_toolchain, cfg.cl_c, cfg.cl_cpp], .exited 1⟩ := by
  simp [checksPhase, h1, h2]

theorem checksPhase_clcpp_missing (cfg : ToolchainConfig) (isfile : String → Bool)
    (h1 : isfile cfg.vcpkg_toolchain = true) (h2 : isfile cfg.cl_c = true)
    (h3 : isfile cfg.cl_cpp = false) :
    checksPhase cfg isfile =
      ⟨[cfg.cl_cpp ++ " could not be found"],
       [cfg.vcpkg_toolchain, cfg.cl_c, cfg.cl_cpp], .exited 1⟩ := by
  simp [checksPhase, h1, h2, h3]

theorem checksPhase_all_found (cfg : ToolchainConfig) (isfile : String → Bool)
    (h1 : isfile cfg.vcpkg_toolchain = true) (h2 : isfile cfg.cl_c = true)
    (h3 : isfile cfg.cl_cpp = true) :
    checksPhase cfg isfile =
      ⟨[], [cfg.vcpkg_toolchain, cfg.cl_c, cfg.cl_cpp], .proceed cfg⟩ := by
  simp [checksPhase, h1, h2, h3]

theorem runProgram_exited (argv : List String) (isfile : String → Bool)
    (o : List String → Int) (P F : List String) (c : Nat)
    (hm : pymain argv isfile = ⟨P, F, .exited c⟩) :
    runProgram argv isfile o = ⟨P, F, [], c⟩ := by
  simp [runProgram, hm]

theorem runProgram_proceed (argv : List String) (isfile : String → Bool)
    (o : List String → Int) (P F : List String) (cfg : ToolchainConfig)
    (hm : pymain argv isfile = ⟨P, F, .proceed cfg⟩) :
    runProgram argv isfile o =
      ⟨P ++ (cmake_configure cfg o targets).printed, F,
       (cmake_configure cfg o targets).procs,
       (cmake_configure cfg o targets).exitCode⟩ := by
  simp [runProgram, hm]

theorem runProgram_vc (bv bc : String) (isfile : String → Bool) (o : List String → Int)
    (h1 : isfile (bv ++ vcpkgSuffix) = true) (h2 : isfile (bc ++ "/clang") = true)
    (h3 : isfile (bc ++ "/clang++") = true) :
    runProgram ["-v", bv, "-c", bc] isfile o =
      ⟨(cmake_configure (mkConfig bv bc) o targets).printed,
       [bv ++ vcpkgSuffix, bc ++ "/clang", bc ++ "/clang++"],
       (cmake_configure (mkConfig bv bc) o targets).procs,
       (cmake_configure (mkConfig bv bc) o targets).exitCode⟩ := by
  have hm : pymain ["-v", bv, "-c", bc] isfile = checksPhase (mkConfig bv bc) isfile :=
    pymain_parse_checks _ _ _ _ _ rfl rfl
  have hc : checksPhase (mkConfig bv bc) isfile =
      ⟨[], [bv ++ vcpkgSuffix, bc ++ "/clang", bc ++ "/clang++"], .proceed (mkConfig bv bc)⟩ :=
    checksPhase_all_found (mkConfig bv bc) isfile h1 h2 h3
  rw [runProgram_proceed _ _ o _ _ _ (hm.trans hc)]
  simp

theorem cc_gen1_fail (cfg : ToolchainConfig) (o : List String → Int)
    (h : o (generateParams cfg "Release" relDir) ≠ 0) :
    cmake_configure cfg o targets =
      ⟨[cmakeFailMsg (o (generateParams cfg "Release" relDir))],
       [generateParams cfg "Release" relDir], 1⟩ := by
  simp [cmake_configure, targets, h]

theorem cc_build1_fail (cfg : ToolchainConfig) (o : List String → Int)
    (hgR : o (generateParams cfg "Release" relDir) = 0)
    (hbR : o (buildParams relDir) ≠ 0) :
    cmake_configure cfg o targets =
      ⟨[cmakeFailMsg (o (buildParams relDir))],
       [generateParams cfg "Release" relDir, buildParams relDir], 1⟩ := by
  simp [cmake_configure, targets, hgR, hbR]

theorem cc_gen2_fail (cfg : ToolchainConfig) (o : List String → Int)
    (hgR : o (generateParams cfg "Release" relDir) = 0)
    (hbR : o (buildParams relDir) = 0)
    (hgD : o (generateParams cfg "Debug" dbgDir) ≠ 0) :
    cmake_configure cfg o targets =
      ⟨"Running Release tests..." ::
         ((if o (testCommand relDir) ≠ 0 then [relDir ++ " tests failed"] else []) ++
           [cmakeFailMsg (o (generateParams cfg "Debug" dbgDir))]),
       [generateParams cfg "Release" relDir, buildParams relDir, testCommand relDir,
        generateParams cfg "Debug" dbgDir], 1⟩ := by
  simp [cmake_configure, targets, hgR, hbR, hgD]

theorem cc_build2_fail (cfg : ToolchainConfig) (o : List String → Int)
    (hgR : o (generateParams cfg "Release" relDir) = 0)
    (hbR : o (buildParams relDir) = 0)
    (hgD : o (generateParams cfg "Debug" dbgDir) = 0)
    (hbD : o (buildParams dbgDir) ≠ 0) :
    cmake_configure cfg o targets =
      ⟨"Running Release tests..." ::
         ((if o (testCommand relDir) ≠ 0 then [relDir ++ " tests failed"] else []) ++
           [cmakeFailMsg (o (buildParams dbgDir))]),
       [generateParams cfg "Release" relDir, buildParams relDir, testCommand relDir,
        generateParams cfg "Debug" dbgDir, buildParams dbgDir], 1⟩ := by
  simp [cmake_configure, targets, hgR, hbR, hgD, hbD]

theorem cc_all_ok (cfg : ToolchainConfig) (o : List String → Int)
    (hgR : o (generateParams cfg "Release" relDir) = 0)
    (hbR : o (buildParams relDir) = 0)
    (hgD : o (generateParams cfg "Debug" dbgDir) = 0)
    (hbD : o (buildParams dbgDir) = 0) :
    cmake_configure cfg o targets =
      ⟨"Running Release tests..." ::
         ((if o (testCommand relDir) ≠ 0 then [relDir ++ " tests failed"] else []) ++
           "Running Debug tests..." ::
             (if o (testCommand dbgDir) ≠ 0 then [dbgDir ++ " tests failed"] else [])),
       fullSequence cfg, 0⟩ := by
  simp [cmake_configure, targets, fullSequence, hgR, hbR, hgD, hbD]

theorem applyOpts_h_exits (opts : List (String × String)) :
    ∀ cfg : ToolchainConfig, (∃ p ∈ opts, p.1 = "-h") →
      applyOpts opts cfg = .error () := by
  induction opts with
  | nil => intro cfg h; simp at h
  | cons q rest ih =>
    intro cfg h
    obtain ⟨a, b⟩ := q
    simp only [applyOpts]
    by_cases ha : a = "-h"
    · rw [if_pos ha]
    · rcases h with ⟨p, hp, hph⟩
      rcases List.mem_cons.mp hp with h1 | hmem
      · subst h1; exact absurd hph ha
      · rw [if_neg ha]
        split_ifs with hB hC
        · exact ih _ ⟨p, hmem, hph⟩
        · exact ih _ ⟨p, hmem, hph⟩
        · exact ih _ ⟨p, hmem, hph⟩

theorem applyOpts_fields (opts : List (String × String)) :
    ∀ cfg : ToolchainConfig, (∀ p ∈ opts, p.1 ≠ "-h") →
    ∃ c, applyOpts opts cfg = .ok c ∧
      ((∀ p ∈ opts, p.1 ≠ "-v" ∧ p.1 ≠ "--vcpkg") →
        c.vcpkg_toolchain = cfg.vcpkg_toolchain) ∧
      ((∀ p ∈ opts, p.1 ≠ "-c" ∧ p.1 ≠ "--cl") →
        c.cl_c = cfg.cl_c ∧ c.cl_cpp = cfg.cl_cpp) := by
  induction opts with
  | nil => intro cfg _; exact ⟨cfg, rfl, fun _ => rfl, fun _ => ⟨rfl, rfl⟩⟩
  | cons q rest ih =>
    intro cfg hh
    obtain ⟨a, b⟩ := q
    have ha : a ≠ "-h" := hh (a, b) (List.mem_cons_self _ _)
    have hhrest : ∀ p ∈ rest, p.1 ≠ "-h" := fun p hp => hh p (List.mem_cons_of_mem _ hp)
    simp only [applyOpts, if_neg ha]
    by_cases hv : a = "-v" ∨ a = "--vcpkg"
    · rw [if_pos hv]
      obtain ⟨c, hc, hcv, hcc⟩ := ih { cfg with vcpkg_toolchain := b ++ vcpkgSuffix } hhrest
      refine ⟨c, hc, ?_, ?_⟩
      · intro hno
        have hx := hno (a, b) (List.mem_cons_self _ _)
        exact absurd hv (not_or.mpr hx)
      · intro hno
        exact hcc (fun p hp => hno p (List.mem_cons_of_mem _ hp))
    · rw [if_neg hv]
      by_cases hcl : a = "-c" ∨ a = "--cl"
      · rw [if_pos hcl]
        obtain ⟨c, hc, hcv, hcc⟩ :=
          ih { cfg with cl_c := b ++ "/clang", cl_cpp := b ++ "/clang++" } hhrest
        refine ⟨c, hc, ?_, ?_⟩
        · intro hno
          exact hcv (fun p hp => hno p (List.mem_cons_of_mem _ hp))
        · intro hno
          have hx := hno (a, b) (List.mem_cons_self _ _)
          exact absurd hcl (not_or.mpr hx)
      · rw [if_neg hcl]
        obtain ⟨c, hc, hcv, hcc⟩ := ih cfg hhrest
        exact ⟨c, hc, fun hno => hcv (fun p hp => hno p (List.mem_cons_of_mem _ hp)),
               fun hno => hcc (fun p hp => hno p (List.mem_cons_of_mem _ hp))⟩

/-! ## Claim theorems -/

/-- C1: for every pair of supplied base paths, if any of the three derived
paths (toolchain file, C compiler, C++ compiler) is missing, the process
launches no subprocess, exits with status 1, and prints exactly one
diagnostic line naming the first missing path in the validation order
toolchain file, then C compiler, then C++ compiler. -/
theorem c1_missing_path_aborts (bv bc : String) (isfile : String → Bool)
    (o : List String → Int)
    (hmiss : ¬ (isfile (bv ++ vcpkgSuffix) = true ∧ isfile (bc ++ "/clang") = true ∧
                isfile (bc ++ "/clang++") = true)) :
    (runProgram ["-v", bv, "-c", bc] isfile o).procs = [] ∧
    (runProgram ["-v", bv, "-c", bc] isfile o).exitCode = 1 ∧
    (runProgram ["-v", bv, "-c", bc] isfile o).printed =
      [(if isfile (bv ++ vcpkgSuffix) = false then bv ++ vcpkgSuffix
        else if isfile (bc ++ "/clang") = false then bc ++ "/clang"
        else bc ++ "/clang++") ++ " could not be found"] := by
  have hm : pymain ["-v", bv, "-c", bc] isfile = checksPhase (mkConfig bv bc) isfile :=
    pymain_parse_checks _ _ _ _ _ rfl rfl
  cases h1 : isfile (bv ++ vcpkgSuffix) with
  | false =>
    have hc := checksPhase_vcpkg_missing (mkConfig bv bc) isfile h1
    rw [runProgram_exited _ isfile o _ _ _ (hm.trans hc)]
    exact ⟨rfl, rfl, by simp [mkConfig, h1]⟩
  | true =>
    cases h2 : isfile (bc ++ "/clang") with
    | false =>
      have hc := checksPhase_clc_missing (mkConfig bv bc) isfile h1 h2
      rw [runProgram_exited _ isfile o _ _ _ (hm.trans hc)]
      exact ⟨rfl, rfl, by simp [mkConfig, h1, h2]⟩
    | true =>
      cases h3 : isfile (bc ++ "/clang++") with
      | false =>
        have hc := checksPhase_clcpp_missing (mkConfig bv bc) isfile h1 h2 h3
        rw [runProgram_exited _ isfile o _ _ _ (hm.trans hc)]
        exact ⟨rfl, rfl, by simp [mkConfig, h1, h2, h3]⟩
      | true => exact absurd ⟨h1, h2, h3⟩ hmiss

/-- C1 witness: with no path existing, the run launches nothing, exits 1,
and prints the toolchain-file diagnostic. -/
theorem c1_missing_path_aborts_witness :
    (¬ ((fun _ : String => false) ("/a" ++ vcpkgSuffix) = true ∧
        (fun _ : String => false) ("/b" ++ "/clang") = true ∧
        (fun _ : String => false) ("/b" ++ "/clang++") = true)) ∧
    ((runProgram ["-v", "/a", "-c", "/b"] (fun _ => false) (fun _ => 0)).procs = [] ∧
     (runProgram ["-v", "/a", "-c", "/b"] (fun _ => false) (fun _ => 0)).exitCode = 1 ∧
     (runProgram ["-v", "/a", "-c", "/b"] (fun _ => false) (fun _ => 0)).printed =
       [(if (fun _ : String => false) ("/a" ++ vcpkgSuffix) = false then "/a" ++ vcpkgSuffix
         else if (fun _ : String => false) ("/b" ++ "/clang") = false then "/b" ++ "/clang"
         else "/b" ++ "/clang++") ++ " could not be found"]) :=
  ⟨by decide, c1_missing_path_aborts "/a" "/b" (fun _ => false) (fun _ => 0) (by decide)⟩

/-- C2: with valid paths, if the generate step of a configuration returns
non-zero, no later command of that configuration nor any command of a
later configuration is launched, a diagnostic containing the numeric exit
code is printed, and the process exits 1.  First conjunct: failure in the
first configuration; second conjunct: failure in the second. -/
theorem c2_generate_failure_fatal (bv bc : String) (isfile : String → Bool)
    (o : List String → Int)
    (h1 : isfile (bv ++ vcpkgSuffix) = true) (h2 : isfile (bc ++ "/clang") = true)
    (h3 : isfile (bc ++ "/clang++") = true) :
    (o (generateParams (mkConfig bv bc) "Release" relDir) ≠ 0 →
      (runProgram ["-v", bv, "-c", bc] isfile o).procs =
        [generateParams (mkConfig bv bc) "Release" relDir] ∧
      (runProgram ["-v", bv, "-c", bc] isfile o).exitCode = 1 ∧
      cmakeFailMsg (o (generateParams (mkConfig bv bc) "Release" relDir)) ∈
        (runProgram ["-v", bv, "-c", bc] isfile o).printed) ∧
    (o (generateParams (mkConfig bv bc) "Release" relDir) = 0 →
      o (buildParams relDir) = 0 →
      o (generateParams (mkConfig bv bc) "Debug" dbgDir) ≠ 0 →
      (runProgram ["-v", bv, "-c", bc] isfile o).procs =
        [generateParams (mkConfig bv bc) "Release" relDir, buildParams relDir,
         testCommand relDir, generateParams (mkConfig bv bc) "Debug" dbgDir] ∧
      (runProgram ["-v", bv, "-c", bc] isfile o).exitCode = 1 ∧
      cmakeFailMsg (o (generateParams (mkConfig bv bc) "Debug" dbgDir)) ∈
        (runProgram ["-v", bv, "-c", bc] isfile o).printed) := by
  rw [runProgram_vc bv bc isfile o h1 h2 h3]
  constructor
  · intro hg
    rw [cc_gen1_fail _ _ hg]
    exact ⟨rfl, rfl, by simp⟩
  · intro hgR hbR hgD
    rw [cc_gen2_fail _ _ hgR hbR hgD]
    exact ⟨rfl, rfl, by simp⟩

/-- C2 witness: an oracle returning 1 everywhere makes the Release
generate step fail: only that one command is launched and the run
exits 1 with the exit-code diagnostic printed. -/
theorem c2_generate_failure_fatal_witness :
    ((fun _ : String => true) ("/a" ++ vcpkgSuffix) = true ∧
     (fun _ : List String => (1 : Int)) (generateParams (mkConfig "/a" "/b") "Release" relDir) ≠ 0) ∧
    ((runProgram ["-v", "/a", "-c", "/b"] (fun _ => true) (fun _ => 1)).procs =
       [generateParams (mkConfig "/a" "/b") "Release" relDir] ∧
     (runProgram ["-v", "/a", "-c", "/b"] (fun _ => true) (fun _ => 1)).exitCode = 1 ∧
     cmakeFailMsg ((fun _ : List String => (1 : Int))
         (generateParams (mkConfig "/a" "/b") "Release" relDir)) ∈
       (runProgram ["-v", "/a", "-c", "/b"] (fun _ => true) (fun _ => 1)).printed) :=
  ⟨⟨rfl, by decide⟩,
   (c2_generate_failure_fatal "/a" "/b" (fun _ => true) (fun _ => 1) rfl rfl rfl).1 (by decide)⟩

/-- C3: with valid paths, if the build step of a configuration returns
non-zero, the test step of that configuration is not launched and the
process exits 1; when this happens in the first configuration, no command
of the second configuration is launched at all (the whole run aborts). -/
theorem c3_build_failure_fatal (bv bc : String) (isfile : String → Bool)
    (o : List String → Int)
    (h1 : isfile (bv ++ vcpkgSuffix) = true) (h2 : isfile (bc ++ "/clang") = true)
    (h3 : isfile (bc ++ "/clang++") = true) :
    (o (generateParams (mkConfig bv bc) "Release" relDir) = 0 →
      o (buildParams relDir) ≠ 0 →
      (runProgram ["-v", bv, "-c", bc] isfile o).procs =
        [generateParams (mkConfig bv bc) "Release" relDir, buildParams relDir] ∧
      (runProgram ["-v", bv, "-c", bc] isfile o).exitCode = 1 ∧
      cmakeFailMsg (o (buildParams relDir)) ∈
        (runProgram ["-v", bv, "-c", bc] isfile o).printed) ∧
    (o (generateParams (mkConfig bv bc) "Release" relDir) = 0 →
      o (buildParams relDir) = 0 →
      o (generateParams (mkConfig bv bc) "Debug" dbgDir) = 0 →
      o (buildParams dbgDir) ≠ 0 →
      (runProgram ["-v", bv, "-c", bc] isfile o).procs =
        [generateParams (mkConfig bv bc) "Release" relDir, buildParams relDir,
         testCommand relDir, generateParams (mkConfig bv bc) "Debug" dbgDir,
         buildParams dbgDir] ∧
      (runProgram ["-v", bv, "-c", bc] isfile o).exitCode = 1) := by
  rw [runProgram_vc bv bc isfile o h1 h2 h3]
  constructor
  · intro hgR hbR
    rw [cc_build1_fail _ _ hgR hbR]
    exact ⟨rfl, rfl, by simp⟩
  · intro hgR hbR hgD hbD
    rw [cc_build2_fail _ _ hgR hbR hgD hbD]
    exact ⟨rfl, rfl⟩

/-- C3 witness: an oracle failing exactly the Release build step: the test
binary is never launched, the Debug configuration is never attempted, and
the run exits 1. -/
theorem c3_build_failure_fatal_witness :
    ((fun cmd => if cmd = buildParams relDir then (2 : Int) else 0)
        (generateParams (mkConfig "/a" "/b") "Release" relDir) = 0 ∧
     (fun cmd => if cmd = buildParams relDir then (2 : Int) else 0) (buildParams relDir) ≠ 0) ∧
    ((runProgram ["-v", "/a", "-c", "/b"] (fun _ => true)
        (fun cmd => if cmd = buildParams relDir then (2 : Int) else 0)).procs =
       [generateParams (mkConfig "/a" "/b") "Release" relDir, buildParams relDir] ∧
     (runProgram ["-v", "/a", "-c", "/b"] (fun _ => true)
        (fun cmd => if cmd = buildParams relDir then (2 : Int) else 0)).exitCode = 1 ∧
     cmakeFailMsg ((fun cmd => if cmd = buildParams relDir then (2 : Int) else 0)
         (buildParams relDir)) ∈
       (runProgram ["-v", "/a", "-c", "/b"] (fun _ => true)
          (fun cmd => if cmd = buildParams relDir then (2 : Int) else 0)).printed) :=
  ⟨⟨by decide, by decide⟩,
   (c3_build_failure_fatal "/a" "/b" (fun _ => true)
      (fun cmd => if cmd = buildParams relDir then (2 : Int) else 0)
      rfl rfl rfl).1 (by decide) (by decide)⟩

/-- C4: with valid paths, when every generate and build step returns 0,
the run launches all six commands (so a failing test never stops the next
configuration), prints the failure diagnostic of any test step that
returns non-zero, and still exits with status 0. -/
theorem c4_test_failure_nonfatal (bv bc : String) (isfile : String → Bool)
    (o : List String → Int)
    (h1 : isfile (bv ++ vcpkgSuffix) = true) (h2 : isfile (bc ++ "/clang") = true)
    (h3 : isfile (bc ++ "/clang++") = true)
    (hgR : o (generateParams (mkConfig bv bc) "Release" relDir) = 0)
    (hbR : o (buildParams relDir) = 0)
    (hgD : o (generateParams (mkConfig bv bc) "Debug" dbgDir) = 0)
    (hbD : o (buildParams dbgDir) = 0) :
    (runProgram ["-v", bv, "-c", bc] isfile o).exitCode = 0 ∧
    (runProgram ["-v", bv, "-c", bc] isfile o).procs = fullSequence (mkConfig bv bc) ∧
    (o (testCommand relDir) ≠ 0 →
      (relDir ++ " tests failed") ∈ (runProgram ["-v", bv, "-c", bc] isfile o).printed) ∧
    (o (testCommand dbgDir) ≠ 0 →
      (dbgDir ++ " tests failed") ∈ (runProgram ["-v", bv, "-c", bc] isfile o).printed) := by
  rw [runProgram_vc bv bc isfile o h1 h2 h3, cc_all_ok _ _ hgR hbR hgD hbD]
  refine ⟨rfl, rfl, ?_, ?_⟩
  · intro ht; simp [ht]
  · intro ht; simp [ht]

/-- C4 witness: both test binaries fail, all six commands still run and
the process exits 0, with both failure diagnostics printed. -/
theorem c4_test_failure_nonfatal_witness :
    (runProgram ["-v", "/a", "-c", "/b"] (fun _ => true)
        (fun cmd => if cmd = testCommand relDir ∨ cmd = testCommand dbgDir then 1 else 0)).exitCode
      = 0 ∧
    (relDir ++ " tests failed") ∈
      (runProgram ["-v", "/a", "-c", "/b"] (fun _ => true)
        (fun cmd => if cmd = testCommand relDir ∨ cmd = testCommand dbgDir then 1 else 0)).printed ∧
    (dbgDir ++ " tests failed") ∈
      (runProgram ["-v", "/a", "-c", "/b"] (fun _ => true)
        (fun cmd => if cmd = testCommand relDir ∨ cmd = testCommand dbgDir then 1 else 0)).printed := by
  have h := c4_test_failure_nonfatal "/a" "/b" (fun _ => true)
      (fun cmd => if cmd = testCommand relDir ∨ cmd = testCommand dbgDir then 1 else 0)
      rfl rfl rfl (by decide) (by decide) (by decide) (by decide)
  exact ⟨h.1, h.2.2.1 (by decide), h.2.2.2 (by decide)⟩

/-- C5 counterexample: in a run where the Release test step returns 1, the
failure diagnostic actually printed is the line naming the output
directory, and the configuration name Release does not occur in it. -/
theorem c5_counterexample_diag_lacks_name :
    (runProgram ["-v", "/a", "-c", "/b"] (fun _ => true)
        (fun cmd => if cmd = testCommand relDir then 1 else 0)).printed =
      ["Running Release tests...", relDir ++ " tests failed", "Running Debug tests..."] ∧
    occursIn "Release".data (relDir ++ " tests failed").data = false := by
  exact ⟨by decide, by decide⟩

/-- C5 amended: the diagnostic printed for a failing test step names the
configuration's output directory (`<dir> tests failed`), and the
configuration name itself does not occur in that line. -/
theorem c5_amended_diag_names_directory (bv bc : String) (isfile : String → Bool)
    (o : List String → Int)
    (h1 : isfile (bv ++ vcpkgSuffix) = true) (h2 : isfile (bc ++ "/clang") = true)
    (h3 : isfile (bc ++ "/clang++") = true)
    (hgR : o (generateParams (mkConfig bv bc) "Release" relDir) = 0)
    (hbR : o (buildParams relDir) = 0)
    (hgD : o (generateParams (mkConfig bv bc) "Debug" dbgDir) = 0)
    (hbD : o (buildParams dbgDir) = 0) :
    (o (testCommand relDir) ≠ 0 →
      (relDir ++ " tests failed") ∈ (runProgram ["-v", bv, "-c", bc] isfile o).printed ∧
      occursIn "Release".data (relDir ++ " tests failed").data = false) ∧
    (o (testCommand dbgDir) ≠ 0 →
      (dbgDir ++ " tests failed") ∈ (runProgram ["-v", bv, "-c", bc] isfile o).printed ∧
      occursIn "Debug".data (dbgDir ++ " tests failed").data = false) := by
  rw [runProgram_vc bv bc isfile o h1 h2 h3, cc_all_ok _ _ hgR hbR hgD hbD]
  constructor
  · intro ht; exact ⟨by simp [ht], by decide⟩
  · intro ht; exact ⟨by simp [ht], by decide⟩

/-- C5 amended witness: the Release test fails; its directory-named
diagnostic is printed and lacks the name Release. -/
theorem c5_amended_diag_names_directory_witness :
    ((fun cmd => if cmd = testCommand relDir then (1 : Int) else 0) (testCommand relDir) ≠ 0) ∧
    ((relDir ++ " tests failed") ∈
       (runProgram ["-v", "/a", "-c", "/b"] (fun _ => true)
         (fun cmd => if cmd = testCommand relDir then (1 : Int) else 0)).printed ∧
     occursIn "Release".data (relDir ++ " tests failed").data = false) :=
  ⟨by decide,
   (c5_amended_diag_names_directory "/a" "/b" (fun _ => true)
      (fun cmd => if cmd = testCommand relDir then (1 : Int) else 0)
      rfl rfl rfl (by decide) (by decide) (by decide) (by decide)).1 (by decide)⟩

/-- C6 counterexample: the argument list `["--bad", "-h"]` contains the
`-h` option, yet the program prints the parse-error usage line and exits
with status 1, not 0: `-h` does not take effect when option parsing fails
on an earlier word. -/
theorem c6_counterexample_help_after_bad_option :
    "-h" ∈ ["--bad", "-h"] ∧
    (runProgram ["--bad", "-h"] (fun _ => false) (fun _ => 0)).exitCode = 1 ∧
    (runProgram ["--bad", "-h"] (fun _ => false) (fun _ => 0)).printed = [usageOnError] := by
  exact ⟨by decide, by decide, by decide⟩

/-- C6 amended: for every argument list that `getopt` parses successfully
and whose parsed options include `-h`, the program prints the usage
message and exits 0, with no filesystem existence check and no subprocess
launched. -/
theorem c6_amended_help_exits_zero (argv : List String)
    (opts : List (String × String)) (rest : List String)
    (isfile : String → Bool) (o : List String → Int)
    (hg : pyGetopt argv = .ok (opts, rest))
    (hh : ∃ p ∈ opts, p.1 = "-h") :
    runProgram argv isfile o = ⟨[usageOnHelp], [], [], 0⟩ := by
  have ha := applyOpts_h_exits opts initialConfig hh
  have hm : pymain argv isfile = ⟨[usageOnHelp], [], .exited 0⟩ := by
    simp [pymain, hg, ha]
  exact runProgram_exited _ _ _ _ _ _ hm

/-- C6 amended witness: `["-h"]` parses to the single option `-h` and the
run prints the help usage line and exits 0 with no checks and no
subprocesses. -/
theorem c6_amended_help_exits_zero_witness :
    (pyGetopt ["-h"] = .ok ([("-h", "")], []) ∧ ∃ p ∈ [("-h", "")], p.1 = "-h") ∧
    runProgram ["-h"] (fun _ => false) (fun _ => 0) = ⟨[usageOnHelp], [], [], 0⟩ :=
  ⟨⟨rfl, by decide⟩,
   c6_amended_help_exits_zero ["-h"] [("-h", "")] [] (fun _ => false) (fun _ => 0)
     rfl (by decide)⟩

/-- C7: the toolchain file path is the `-v`/`--vcpkg` base path followed by
the fixed suffix `/vcpkg/scripts/buildsystems/vcpkg.cmake`, and the two
compiler paths are the `-c`/`--cl` base path followed by `/clang` and
`/clang++`; both the short and the long option spellings derive the same
configuration. -/
theorem c7_path_derivation (bv bc : String) :
    resolvedConfig ["-v", bv, "-c", bc] =
      some ⟨bv ++ vcpkgSuffix, bc ++ "/clang", bc ++ "/clang++"⟩ ∧
    resolvedConfig ["--vcpkg", bv, "--cl", bc] =
      some ⟨bv ++ vcpkgSuffix, bc ++ "/clang", bc ++ "/clang++"⟩ :=
  ⟨rfl, rfl⟩

/-- C8: with valid paths and every subprocess returning 0, the run
processes exactly the two configurations Release and Debug, launching
their six commands in order, prints exactly one `Running <name> tests...`
line for each of the two configuration names, and exits 0; the two output
directories are distinct and neither is a path prefix of the other. -/
theorem c8_all_success_two_configs (bv bc : String) (isfile : String → Bool)
    (o : List String → Int)
    (h1 : isfile (bv ++ vcpkgSuffix) = true) (h2 : isfile (bc ++ "/clang") = true)
    (h3 : isfile (bc ++ "/clang++") = true)
    (hgR : o (generateParams (mkConfig bv bc) "Release" relDir) = 0)
    (hbR : o (buildParams relDir) = 0)
    (htR : o (testCommand relDir) = 0)
    (hgD : o (generateParams (mkConfig bv bc) "Debug" dbgDir) = 0)
    (hbD : o (buildParams dbgDir) = 0)
    (htD : o (testCommand dbgDir) = 0) :
    runProgram ["-v", bv, "-c", bc] isfile o =
      ⟨["Running Release tests...", "Running Debug tests..."],
       [bv ++ vcpkgSuffix, bc ++ "/clang", bc ++ "/clang++"],
       fullSequence (mkConfig bv bc), 0⟩ ∧
    targets.map Prod.fst = ["Release", "Debug"] ∧
    relDir ≠ dbgDir ∧
    relDir.data.isPrefixOf dbgDir.data = false ∧
    dbgDir.data.isPrefixOf relDir.data = false := by
  refine ⟨?_, by decide, by decide, by decide, by decide⟩
  rw [runProgram_vc bv bc isfile o h1 h2 h3, cc_all_ok _ _ hgR hbR hgD hbD]
  simp [htR, htD]

/-- C8 witness: a concrete fully-successful run. -/
theorem c8_all_success_two_configs_witness :
    ((fun _ : String => true) ("/a" ++ vcpkgSuffix) = true ∧
     (fun _ : List String => (0 : Int)) (testCommand relDir) = 0) ∧
    (runProgram ["-v", "/a", "-c", "/b"] (fun _ => true) (fun _ => 0) =
       ⟨["Running Release tests...", "Running Debug tests..."],
        ["/a" ++ vcpkgSuffix, "/b" ++ "/clang", "/b" ++ "/clang++"],
        fullSequence (mkConfig "/a" "/b"), 0⟩ ∧
     targets.map Prod.fst = ["Release", "Debug"] ∧
     relDir ≠ dbgDir ∧
     relDir.data.isPrefixOf dbgDir.data = false ∧
     dbgDir.data.isPrefixOf relDir.data = false) :=
  ⟨⟨rfl, rfl⟩,
   c8_all_success_two_configs "/a" "/b" (fun _ => true) (fun _ => 0)
     rfl rfl rfl rfl rfl rfl rfl rfl rfl⟩

/-- C9: for every argument list that getopt parses successfully with no
`-h` among the parsed options, no argument-parse error is reported;
if `-v`/`--vcpkg` is absent the toolchain path stays the empty-string
default, its existence check fails and the run prints the
` could not be found` diagnostic (naming that empty path) and exits 1
before any subprocess; if instead `-c`/`--cl` is absent (and the
toolchain file exists) the same happens at the C-compiler check. -/
theorem c9_omitted_option_fails_existence_check (argv : List String)
    (opts : List (String × String)) (rest : List String)
    (isfile : String → Bool) (o : List String → Int)
    (hg : pyGetopt argv = .ok (opts, rest))
    (hh : ∀ p ∈ opts, p.1 ≠ "-h")
    (hempty : isfile "" = false) :
    ((∀ p ∈ opts, p.1 ≠ "-v" ∧ p.1 ≠ "--vcpkg") →
      runProgram argv isfile o = ⟨[" could not be found"], [""], [], 1⟩) ∧
    (∀ cfg : ToolchainConfig, applyOpts opts initialConfig = .ok cfg →
      (∀ p ∈ opts, p.1 ≠ "-c" ∧ p.1 ≠ "--cl") →
      isfile cfg.vcpkg_toolchain = true →
      runProgram argv isfile o =
        ⟨[" could not be found"], [cfg.vcpkg_toolchain, "", ""], [], 1⟩) := by
  obtain ⟨c, hc, hpv, hpc⟩ := applyOpts_fields opts initialConfig hh
  constructor
  · intro hnov
    have hv0 : c.vcpkg_toolchain = "" := by simpa [initialConfig] using hpv hnov
    have hm : pymain argv isfile = ⟨[" could not be found"], [""], .exited 1⟩ := by
      rw [pymain_parse_checks argv opts rest c isfile hg hc,
          checksPhase_vcpkg_missing c isfile (by rw [hv0]; exact hempty), hv0,
          string_empty_append]
    exact runProgram_exited _ _ _ _ _ _ hm
  · intro cfg hcfg hnoc htc
    have hceq : c = cfg := Except.ok.inj (hc.symm.trans hcfg)
    subst hceq
    obtain ⟨hc1, hc2⟩ := hpc hnoc
    have hc1' : c.cl_c = "" := by simpa [initialConfig] using hc1
    have hc2' : c.cl_cpp = "" := by simpa [initialConfig] using hc2
    have hm : pymain argv isfile =
        ⟨[" could not be found"], [c.vcpkg_toolchain, "", ""], .exited 1⟩ := by
      rw [pymain_parse_checks argv opts rest c isfile hg hc,
          checksPhase_clc_missing c isfile htc (by rw [hc1']; exact hempty), hc1', hc2',
          string_empty_append]
    exact runProgram_exited _ _ _ _ _ _ hm

/-- C9 witness: `["-c", "/b"]` parses fine with no `-v`; the toolchain
check runs on the empty string, fails, prints ` could not be found`
and the process exits 1 with no subprocess launched. -/
theorem c9_omitted_option_fails_existence_check_witness :
    (pyGetopt ["-c", "/b"] = .ok ([("-c", "/b")], []) ∧
     (fun s => !(s == "")) "" = false) ∧
    runProgram ["-c", "/b"] (fun s => !(s == "")) (fun _ => 0) =
      ⟨[" could not be found"], [""], [], 1⟩ :=
  ⟨⟨rfl, rfl⟩,
   (c9_omitted_option_fails_existence_check ["-c", "/b"] [("-c", "/b")] []
      (fun s => !(s == "")) (fun _ => 0) rfl (by decide) rfl).1 (by decide)⟩

/-- C10: the configuration table is, in insertion order, Release with
output directory `../build/release` then Debug with `../build/debug`, and
on every run the launched commands form a non-empty prefix of the fixed
Release-then-Debug command sequence: Release's commands always come
first, and Debug's only after all of Release's. -/
theorem c10_deterministic_order (cfg : ToolchainConfig) (o : List String → Int) :
    targets = [("Release", relDir), ("Debug", dbgDir)] ∧
    ∃ k, 1 ≤ k ∧ (cmake_configure cfg o targets).procs = (fullSequence cfg).take k := by
  refine ⟨rfl, ?_⟩
  by_cases hgR : o (generateParams cfg "Release" relDir) ≠ 0
  · exact ⟨1, by omega, by rw [cc_gen1_fail _ _ hgR]; rfl⟩
  · push_neg at hgR
    by_cases hbR : o (buildParams relDir) ≠ 0
    · exact ⟨2, by omega, by rw [cc_build1_fail _ _ hgR hbR]; rfl⟩
    · push_neg at hbR
      by_cases hgD : o (generateParams cfg "Debug" dbgDir) ≠ 0
      · exact ⟨4, by omega, by rw [cc_gen2_fail _ _ hgR hbR hgD]; rfl⟩
      · push_neg at hgD
        by_cases hbD : o (buildParams dbgDir) ≠ 0
        · exact ⟨5, by omega, by rw [cc_build2_fail _ _ hgR hbR hgD hbD]; rfl⟩
        · push_neg at hbD
          exact ⟨6, by omega, by rw [cc_all_ok _ _ hgR hbR hgD hbD]; rfl⟩
